import Mathlib

/-!
Shallow embedding of `src/app.py` (email-generation-tester).

The program loads three CSV tables (LinkedIn profiles, company websites,
company news), joins them on a company name for a selected person, assembles
a prompt and sends it to a hosted generation service, falling back to an
error string on failure.  Tables are modelled as a list of columns plus a
list of rows; a row is an association list from column name to cell value.
Pandas operations that can raise (`df[col]` with a missing column raising a
key error, `.iloc[0]` on an empty selection raising an index error) are
modelled with `Except PyErr`; the surrounding Python try/except blocks are
the `Except`-to-`Option` boundaries below.
-/

/-- A row of a loaded table: association list from column name to cell value,
as produced by pandas `Series.to_dict()`. -/
abbrev Row : Type := List (String × String)

/-- First value of a column in a row (`dict` access on a `to_dict()` result,
or a cell of a CSV row). -/
def rowGet (r : Row) (c : String) : Option String :=
  (r.find? (fun kv => kv.1 == c)).map (fun kv => kv.2)

/-- A loaded table (pandas DataFrame from `read_csv`): the header columns and
the rows in source order. -/
structure Table where
  columns : List String
  rows : List Row
deriving DecidableEq, Repr

/-- Exceptions that pandas raises inside `get_person_info`:
`indexError` is `.iloc[0]` on an empty selection, `keyError c` is a lookup of
a missing column `c`. -/
inductive PyErr where
  | indexError : PyErr
  | keyError : String → PyErr
deriving DecidableEq, Repr

/-- `str(e)` for the modelled pandas exceptions: pandas renders the empty
`.iloc[0]` as "single positional indexer is out-of-bounds" at every stage,
and Python renders `KeyError(c)` as `'c'`. -/
def PyErr.message : PyErr → String
  | .indexError => "single positional indexer is out-of-bounds"
  | .keyError c => "'" ++ c ++ "'"

/-- `df[col]` column access: raises a key error when the column is absent. -/
def colAccess (t : Table) (c : String) : Except PyErr Unit :=
  if c ∈ t.columns then Except.ok () else Except.error (PyErr.keyError c)

/-- The rows of `rows` whose cell in column `col` equals `v`:
`df[df[col] == v]` after the column access has succeeded. -/
def filterEq (rows : List Row) (col v : String) : List Row :=
  rows.filter (fun r => rowGet r col == some v)

/-- `.iloc[0]`: the first row of a selection, raising an index error when the
selection is empty. -/
def iloc0 (rs : List Row) : Except PyErr Row :=
  match rs.head? with
  | some r => Except.ok r
  | none => Except.error PyErr.indexError

/-- The three in-memory tables returned by `load_all_data`, keyed
"linkedin" / "website" / "news" in the source dictionary. -/
structure AllData where
  linkedin : Table
  website : Table
  news : Table
deriving DecidableEq, Repr

/-- The combined record built by `get_person_info`
(`{"person": ..., "company": ..., "news": ...}`). -/
structure CombinedRecord where
  person : Row
  company : Row
  news : Row
deriving DecidableEq, Repr

/-- `load_all_data` (src/app.py lines 17-31).  The three `read_csv` results
are passed in as oracles (`Except.error e` is a raised exception whose
`str` is `e`).  On the first failure the `except` branch shows one
`st.error` message and returns `None`; on success all three tables are
returned.  The second component is the list of `st.error` messages shown. -/
def load_all_data (linkedin_src website_src news_src : Except String Table) :
    Option AllData × List String :=
  match (do
    let linkedin_data ← linkedin_src
    let website_data ← website_src
    let news_data ← news_src
    Except.ok { linkedin := linkedin_data, website := website_data,
                news := news_data }) with
  | Except.ok d => (some d, [])
  | Except.error e => (none, ["Error loading data: " ++ e])

/-- The body of the `try` block of `get_person_info`
(src/app.py lines 36-55): each pandas step may raise. -/
def get_person_info_try (person_name : String) (all_data : AllData) :
    Except PyErr CombinedRecord := do
  let _ ← colAccess all_data.linkedin "name"
  let linkedin_info ← iloc0 (filterEq all_data.linkedin.rows "name" person_name)
  let company_name ←
    match rowGet linkedin_info "company" with
    | some c => Except.ok c
    | none => Except.error (PyErr.keyError "company")
  let _ ← colAccess all_data.website "company_name"
  let website_info ← iloc0 (filterEq all_data.website.rows "company_name" company_name)
  let _ ← colAccess all_data.news "related_company"
  let news_info ← iloc0 (filterEq all_data.news.rows "related_company" company_name)
  Except.ok { person := linkedin_info, company := website_info, news := news_info }

/-- `get_person_info` (src/app.py lines 33-58): the `try` body plus the
catch-all `except`, which shows one generic `st.error` message built from
`str(e)` and returns `None`.  The second component is the list of `st.error`
messages shown. -/
def get_person_info (person_name : String) (all_data : AllData) :
    Option CombinedRecord × List String :=
  match get_person_info_try person_name all_data with
  | Except.ok r => (some r, [])
  | Except.error e =>
      (none, ["Error retrieving comprehensive information: " ++ e.message])

/-- Decoding parameters for the generation service as a generation config
dictionary (src/app.py lines 64-69). -/
structure GenerationConfig where
  temperature : ℚ
  top_p : ℚ
  top_k : ℕ
  max_output_tokens : ℕ
deriving DecidableEq, Repr

/-- One safety-setting entry (src/app.py lines 71-76). -/
structure SafetySetting where
  category : String
  threshold : String
deriving DecidableEq, Repr

/-- The `generation_config` dictionary built inside `generate_email`
(src/app.py lines 64-69). -/
def generation_config : GenerationConfig :=
  { temperature := 7 / 10, top_p := 19 / 20, top_k := 40,
    max_output_tokens := 1024 }

/-- The `safety_settings` list built inside `generate_email`
(src/app.py lines 71-76). -/
def safety_settings : List SafetySetting :=
  [ { category := "HARM_CATEGORY_HARASSMENT", threshold := "BLOCK_MEDIUM_AND_ABOVE" },
    { category := "HARM_CATEGORY_HATE_SPEECH", threshold := "BLOCK_MEDIUM_AND_ABOVE" },
    { category := "HARM_CATEGORY_SEXUALLY_EXPLICIT", threshold := "BLOCK_MEDIUM_AND_ABOVE" },
    { category := "HARM_CATEGORY_DANGEROUS_CONTENT", threshold := "BLOCK_MEDIUM_AND_ABOVE" } ]

/-- A `genai.GenerativeModel`: the constructor's keyword arguments; an
argument left at its default is `none`. -/
structure GenerativeModel where
  model_name : String
  generation_config : Option GenerationConfig
  safety_settings : Option (List SafetySetting)
deriving DecidableEq, Repr

/-- The model constructed by `generate_email` (src/app.py lines 78-82): only
`model_name` is passed; the `generation_config=` and `safety_settings=`
arguments are commented out in the source, so both stay at their `None`
defaults. -/
def the_model : GenerativeModel :=
  { model_name := "gemini-1.5-flash", generation_config := none,
    safety_settings := none }

/-- Python `str.upper()` for the category names interpolated into the
section headers: character-wise uppercasing. -/
def pyUpper (s : String) : String :=
  String.mk (s.data.map Char.toUpper)

/-- One section of the `data_str` loop body (src/app.py lines 86-89): header
line for the upper-cased category, then one `key: value` line per field,
then a newline. -/
def section_str (category : String) (info : Row) : String :=
  "\n--- " ++ pyUpper category ++ " INFORMATION ---\n" ++
    String.intercalate "\n" (info.map (fun kv => kv.1 ++ ": " ++ kv.2)) ++ "\n"

/-- `data_str` (src/app.py lines 85-89): the loop over
`data.items()` visits the keys of `comprehensive_info` in insertion order:
"person", "company", "news". -/
def data_str (data : CombinedRecord) : String :=
  section_str "person" data.person ++ section_str "company" data.company ++
    section_str "news" data.news

/-- Literal text of the prompt template before `{data_str}`
(src/app.py lines 91-93). -/
def template_before_data : String :=
  "\n        Based on the following data:\n        \n        "

/-- Literal text of the prompt template between `{data_str}` and `{prompt}`
(src/app.py lines 94-97). -/
def template_before_instructions : String :=
  "\n        \n        And following these instructions:\n        "

/-- Literal text of the prompt template after `{prompt}`
(src/app.py lines 98-112). -/
def template_after_instructions : String :=
  "\n        \n        Generate a professional email with:\n        1. A compelling subject line\n        2. A personalized greeting\n        3. Email body that incorporates the data effectively\n        4. A professional closing\n        \n        Format the response as:\n        \n        Subject: [Subject Line]\n        \n        [Email Body]\n        \n        [Signature]\n        "

/-- `full_prompt` (src/app.py lines 91-112): the f-string template with
`data_str` and the user instructions interpolated. -/
def full_prompt (data : CombinedRecord) (prompt : String) : String :=
  template_before_data ++ data_str data ++ template_before_instructions ++
    prompt ++ template_after_instructions

/-- One request to the generation service (`model.generate_content(...)`):
the model it is issued on (carrying the decoding configuration, if any) and
the prompt text. -/
structure GenRequest where
  model : GenerativeModel
  prompt : String
deriving DecidableEq, Repr

/-- The request `generate_email` issues for given data and prompt
(src/app.py line 114): `the_model` with the assembled `full_prompt`. -/
def generate_email_request (data : CombinedRecord) (prompt : String) :
    GenRequest :=
  { model := the_model, prompt := full_prompt data prompt }

/-- The external world of `generate_email`: whether the
`genai.GenerativeModel` constructor raises (and with what message), and
what `model.generate_content` does for a request — `Except.ok t` is a
response whose `.text` is `t`, `Except.error e` is any raised transport,
authentication or service exception with message `e`. -/
structure GenEnv where
  construct_model_fails : Option String
  generate_content : GenRequest → Except String String

/-- `generate_email` (src/app.py lines 60-117): builds the (unused) config
and safety lists, constructs the model, assembles `full_prompt`, issues one
`generate_content` request and returns `response.text`; the catch-all
`except` turns any raised exception `e` into the string
`"Error generating email: " ++ str(e)`. -/
def generate_email (env : GenEnv) (data : CombinedRecord) (prompt : String) :
    String :=
  match (do
    let _gc := generation_config
    let _ss := safety_settings
    let model ←
      match env.construct_model_fails with
      | some e => Except.error e
      | none => Except.ok the_model
    env.generate_content { model := model, prompt := full_prompt data prompt }) with
  | Except.ok t => t
  | Except.error e => "Error generating email: " ++ e

/-- The requests `generate_email` sends to the generation service: none when
the model constructor raises first, otherwise exactly the one request. -/
def generate_email_calls (env : GenEnv) (data : CombinedRecord)
    (prompt : String) : List GenRequest :=
  match env.construct_model_fails with
  | some _ => []
  | none => [generate_email_request data prompt]

/-- Outcome of pressing the "Generate Email" button in `main`
(src/app.py lines 202-217): either the generated email content is shown
(prompt non-empty, Python truthiness of the string), or the
empty-prompt warning; paired with the list of requests sent to the
generation service during the click. -/
def generate_click (env : GenEnv) (person_info : CombinedRecord)
    (email_prompt : String) :
    (Option String × List String) × List GenRequest :=
  if email_prompt = "" then
    ((none, ["Please enter a prompt for email generation."]), [])
  else
    ((some (generate_email env person_info email_prompt), []),
      generate_email_calls env person_info email_prompt)

/-- `sub` occurs as a contiguous substring of `s`. -/
def substr (sub s : String) : Prop :=
  ∃ a b, s = a ++ sub ++ b

theorem substr_self (s : String) : substr s s :=
  ⟨"", "", by simp⟩

theorem substr_app_left {x s : String} (t : String) (h : substr x s) :
    substr x (t ++ s) := by
  obtain ⟨a, b, rfl⟩ := h
  exact ⟨t ++ a, b, by simp [String.append_assoc]⟩

theorem substr_app_right {x s : String} (t : String) (h : substr x s) :
    substr x (s ++ t) := by
  obtain ⟨a, b, rfl⟩ := h
  exact ⟨a, b ++ t, by simp [String.append_assoc]⟩

/-- The three tables of the worked example of the specification:
Jane Doe works at Acme, which has one website row and one news row. -/
def exampleData : AllData :=
  { linkedin := ⟨["name", "title", "company", "location", "about"],
      [[("name", "Jane Doe"), ("title", "CEO"), ("company", "Acme"),
        ("location", "Paris"), ("about", "Builds widgets")]]⟩,
    website := ⟨["company_name", "summary"],
      [[("company_name", "Acme"), ("summary", "Widgets")]]⟩,
    news := ⟨["related_company", "headline"],
      [[("related_company", "Acme"), ("headline", "Acme raises funding")]]⟩ }

/-- The combined record that `get_person_info "Jane Doe" exampleData`
produces. -/
def exampleRecord : CombinedRecord :=
  { person := [("name", "Jane Doe"), ("title", "CEO"), ("company", "Acme"),
      ("location", "Paris"), ("about", "Builds widgets")],
    company := [("company_name", "Acme"), ("summary", "Widgets")],
    news := [("related_company", "Acme"), ("headline", "Acme raises funding")] }

/-- Variant of the example data where the queried person is missing from the
profile table (profile-stage failure). -/
def exampleDataNoPerson : AllData :=
  { linkedin := ⟨["name", "company"], [[("name", "John Smith"), ("company", "Acme")]]⟩,
    website := exampleData.website,
    news := exampleData.news }

/-- Variant of the example data where the person exists but their employer
has no row in the company table, while a news row for the employer does
exist (company-stage failure). -/
def exampleDataNoCompany : AllData :=
  { linkedin := exampleData.linkedin,
    website := ⟨["company_name", "summary"],
      [[("company_name", "Globex"), ("summary", "Other")]]⟩,
    news := exampleData.news }

/-- Profile table with two rows for the same person name and different
employers, to exercise the first-match tie-break. -/
def exampleDataDuplicate : AllData :=
  { linkedin := ⟨["name", "company"],
      [[("name", "Jane Doe"), ("company", "Acme")],
       [("name", "Jane Doe"), ("company", "Globex")]]⟩,
    website := exampleData.website,
    news := exampleData.news }

/-- A generation environment whose model constructor succeeds and whose
service call always raises with message "quota exceeded". -/
def envServiceFails : GenEnv :=
  { construct_model_fails := none,
    generate_content := fun _ => Except.error "quota exceeded" }

/-- A generation environment whose model constructor succeeds and whose
service call always answers with the text "Subject: Hello". -/
def envServiceOk : GenEnv :=
  { construct_model_fails := none,
    generate_content := fun _ => Except.ok "Subject: Hello" }

example :
    get_person_info "Jane Doe"
      { linkedin := ⟨["name", "company"], [[("name", "Jane Doe"), ("company", "Acme")]]⟩,
        website := ⟨["company_name", "summary"], [[("company_name", "Acme"), ("summary", "Widgets")]]⟩,
        news := ⟨["related_company", "headline"], [[("related_company", "Acme"), ("headline", "Acme raises funding")]]⟩ } =
    (some { person := [("name", "Jane Doe"), ("company", "Acme")],
            company := [("company_name", "Acme"), ("summary", "Widgets")],
            news := [("related_company", "Acme"), ("headline", "Acme raises funding")] }, []) := by
  decide

theorem exceptBind_ok {ε α β : Type} (a : α) (f : α → Except ε β) :
    (Except.ok a >>= f) = f a := rfl

theorem exceptBind_error {ε α β : Type} (e : ε) (f : α → Except ε β) :
    ((Except.error e : Except ε α) >>= f) = Except.error e := rfl

theorem filterEq_head?_eq_find? (rows : List Row) (col v : String) :
    (filterEq rows col v).head? =
      rows.find? (fun r => rowGet r col == some v) := by
  induction rows with
  | nil => rfl
  | cons x xs ih =>
      by_cases hx : (rowGet x col == some v) = true
      · simp [filterEq, hx]
      · simp only [filterEq] at ih ⊢
        rw [List.filter_cons, if_neg hx, List.find?_cons_of_neg xs hx]
        exact ih

theorem rowGet_of_head?_filterEq {rows : List Row} {col v : String} {r : Row}
    (h : (filterEq rows col v).head? = some r) : rowGet r col = some v := by
  rw [filterEq_head?_eq_find?] at h
  simpa using List.find?_some h

theorem iloc0_of_head? {rs : List Row} {r : Row} (h : rs.head? = some r) :
    iloc0 rs = Except.ok r := by
  simp [iloc0, h]

/-- If the profile-stage lookup selects row `r`, `get_person_info_try`
continues with the remaining stages on `r`. -/
theorem get_person_info_try_person {p : String} {d : AllData} {r : Row}
    (h1 : "name" ∈ d.linkedin.columns)
    (h2 : (filterEq d.linkedin.rows "name" p).head? = some r) :
    get_person_info_try p d =
      (do
        let company_name ←
          match rowGet r "company" with
          | some c => Except.ok c
          | none => Except.error (PyErr.keyError "company")
        let _ ← colAccess d.website "company_name"
        let website_info ← iloc0 (filterEq d.website.rows "company_name" company_name)
        let _ ← colAccess d.news "related_company"
        let news_info ← iloc0 (filterEq d.news.rows "related_company" company_name)
        Except.ok { person := r, company := website_info, news := news_info }) := by
  simp [get_person_info_try, colAccess, h1, iloc0, h2, exceptBind_ok,
    exceptBind_error]

/-- Full success characterization of `get_person_info_try`. -/
theorem get_person_info_try_ok {p : String} {d : AllData}
    {r wrow nrow : Row} {c : String}
    (h1 : "name" ∈ d.linkedin.columns)
    (h2 : (filterEq d.linkedin.rows "name" p).head? = some r)
    (h3 : rowGet r "company" = some c)
    (h4 : "company_name" ∈ d.website.columns)
    (h5 : (filterEq d.website.rows "company_name" c).head? = some wrow)
    (h6 : "related_company" ∈ d.news.columns)
    (h7 : (filterEq d.news.rows "related_company" c).head? = some nrow) :
    get_person_info_try p d =
      Except.ok { person := r, company := wrow, news := nrow } := by
  rw [get_person_info_try_person h1 h2]
  simp [colAccess, h3, h4, h6, iloc0, h5, h7, exceptBind_ok, exceptBind_error]

/-- Failure of the profile-stage lookup raises the index error there. -/
theorem get_person_info_try_profile_fail {p : String} {d : AllData}
    (h1 : "name" ∈ d.linkedin.columns)
    (h2 : filterEq d.linkedin.rows "name" p = []) :
    get_person_info_try p d = Except.error PyErr.indexError := by
  simp [get_person_info_try, colAccess, h1, iloc0, h2, exceptBind_ok,
    exceptBind_error]

/-- Failure of the company-stage lookup raises the index error there
(the news table is never consulted). -/
theorem get_person_info_try_company_fail {p : String} {d : AllData}
    {r : Row} {c : String}
    (h1 : "name" ∈ d.linkedin.columns)
    (h2 : (filterEq d.linkedin.rows "name" p).head? = some r)
    (h3 : rowGet r "company" = some c)
    (h4 : "company_name" ∈ d.website.columns)
    (h5 : filterEq d.website.rows "company_name" c = []) :
    get_person_info_try p d = Except.error PyErr.indexError := by
  rw [get_person_info_try_person h1 h2]
  simp [colAccess, h3, h4, iloc0, h5, exceptBind_ok, exceptBind_error]

/-- A successful `get_person_info` result comes from a successful `try`
body. -/
theorem get_person_info_ok_inv {p : String} {d : AllData}
    {rec : CombinedRecord}
    (h : get_person_info p d = (some rec, [])) :
    get_person_info_try p d = Except.ok rec := by
  cases htry : get_person_info_try p d with
  | ok r => simp [get_person_info, htry] at h; rw [h]
  | error e => simp [get_person_info, htry] at h

/-- Inversion of a successful `try` body once the profile-stage row is
known: the person component is that row and the later lookups are keyed by
its employer field. -/
theorem get_person_info_try_ok_inv {p : String} {d : AllData} {r : Row}
    {rec : CombinedRecord}
    (h1 : "name" ∈ d.linkedin.columns)
    (hhead : (filterEq d.linkedin.rows "name" p).head? = some r)
    (h : get_person_info_try p d = Except.ok rec) :
    rec.person = r ∧
    rowGet rec.company "company_name" = rowGet r "company" ∧
    rowGet rec.news "related_company" = rowGet r "company" := by
  rw [get_person_info_try_person h1 hhead] at h
  cases hc : rowGet r "company" with
  | none => rw [hc] at h; simp [exceptBind_error] at h
  | some c =>
      rw [hc] at h
      simp only [exceptBind_ok] at h
      by_cases h4 : "company_name" ∈ d.website.columns
      · simp only [colAccess, if_pos h4, exceptBind_ok] at h
        cases hw : (filterEq d.website.rows "company_name" c).head? with
        | none => simp [iloc0, hw, exceptBind_error] at h
        | some w =>
            simp only [iloc0_of_head? hw, exceptBind_ok] at h
            by_cases h6 : "related_company" ∈ d.news.columns
            · simp only [colAccess, if_pos h6, exceptBind_ok] at h
              cases hn : (filterEq d.news.rows "related_company" c).head? with
              | none => simp [iloc0, hn, exceptBind_error] at h
              | some n =>
                  simp only [iloc0_of_head? hn, exceptBind_ok] at h
                  have hrec : rec = { person := r, company := w, news := n } := by
                    cases h; rfl
                  subst hrec
                  exact ⟨rfl, by rw [rowGet_of_head?_filterEq hw],
                    by rw [rowGet_of_head?_filterEq hn]⟩
            · simp [colAccess, if_neg h6, exceptBind_error] at h
      · simp [colAccess, if_neg h4, exceptBind_error] at h

example : get_person_info "Jane Doe" exampleData = (some exampleRecord, []) := by
  decide

example :
    get_person_info "Jane Doe" exampleDataNoPerson =
      (none, ["Error retrieving comprehensive information: single positional indexer is out-of-bounds"]) := by
  decide

example :
    get_person_info "Jane Doe" exampleDataNoCompany =
      (none, ["Error retrieving comprehensive information: single positional indexer is out-of-bounds"]) := by
  decide

/-! ## Claim theorems -/

/-- C1 counterexample: the claim as stated is false in its last part — the
error does not identify the join stage.  A profile-stage failure (person
absent from the profile table) and a company-stage failure (person present,
employer absent from the company table, while a news row for the employer
exists) produce identical user-visible results, with the same single
generic error message. -/
theorem resolve_error_does_not_identify_stage :
    filterEq exampleDataNoPerson.linkedin.rows "name" "Jane Doe" = [] ∧
    (filterEq exampleDataNoCompany.linkedin.rows "name" "Jane Doe").head? ≠ none ∧
    filterEq exampleDataNoCompany.website.rows "company_name" "Acme" = [] ∧
    filterEq exampleDataNoCompany.news.rows "related_company" "Acme" ≠ [] ∧
    get_person_info "Jane Doe" exampleDataNoPerson =
      get_person_info "Jane Doe" exampleDataNoCompany ∧
    (get_person_info "Jane Doe" exampleDataNoPerson).1 = none := by
  decide

/-- C1 (amended): when the profile-table lookup finds no row for the queried
person, `get_person_info` fails and produces no CombinedRecord; when the
person is found but the employer has no row in the company table it likewise
fails with no CombinedRecord, whatever the news table contains; in both
cases the single user-visible error message is the same generic one, which
does not identify the join stage at which the lookup failed. -/
theorem resolve_failure_stage_behaviour (p : String) (d : AllData)
    (h1 : "name" ∈ d.linkedin.columns) :
    (filterEq d.linkedin.rows "name" p = [] →
      get_person_info p d =
        (none, ["Error retrieving comprehensive information: single positional indexer is out-of-bounds"])) ∧
    (∀ r c, (filterEq d.linkedin.rows "name" p).head? = some r →
      rowGet r "company" = some c →
      "company_name" ∈ d.website.columns →
      filterEq d.website.rows "company_name" c = [] →
      get_person_info p d =
        (none, ["Error retrieving comprehensive information: single positional indexer is out-of-bounds"])) := by
  constructor
  · intro h2
    simp [get_person_info, get_person_info_try_profile_fail h1 h2,
      PyErr.message]
  · intro r c h2 h3 h4 h5
    simp [get_person_info, get_person_info_try_company_fail h1 h2 h3 h4 h5,
      PyErr.message]

/-- Witness for the amended C1 theorem: both example failure datasets give
the generic error and no record. -/
theorem resolve_failure_stage_behaviour_witness :
    get_person_info "Jane Doe" exampleDataNoPerson =
      (none, ["Error retrieving comprehensive information: single positional indexer is out-of-bounds"]) ∧
    get_person_info "Jane Doe" exampleDataNoCompany =
      (none, ["Error retrieving comprehensive information: single positional indexer is out-of-bounds"]) :=
  ⟨(resolve_failure_stage_behaviour "Jane Doe" exampleDataNoPerson
      (by decide)).1 (by decide),
   (resolve_failure_stage_behaviour "Jane Doe" exampleDataNoCompany
      (by decide)).2
     [("name", "Jane Doe"), ("title", "CEO"), ("company", "Acme"),
      ("location", "Paris"), ("about", "Builds widgets")]
     "Acme" (by decide) (by decide) (by decide) (by decide)⟩

/-- C3: for every person present in the profile table whose employer has at
least one matching row in the company table and at least one in the news
table, `get_person_info` succeeds (no error message) and the three join
keys of the returned CombinedRecord — profile employer, company name and
news related-company — are pairwise equal and equal to the profile row's
employer field. -/
theorem resolve_success_join_keys (p : String) (d : AllData)
    (r wrow nrow : Row) (c : String)
    (h1 : "name" ∈ d.linkedin.columns)
    (h2 : (filterEq d.linkedin.rows "name" p).head? = some r)
    (h3 : rowGet r "company" = some c)
    (h4 : "company_name" ∈ d.website.columns)
    (h5 : (filterEq d.website.rows "company_name" c).head? = some wrow)
    (h6 : "related_company" ∈ d.news.columns)
    (h7 : (filterEq d.news.rows "related_company" c).head? = some nrow) :
    get_person_info p d =
      (some { person := r, company := wrow, news := nrow }, []) ∧
    rowGet r "company" = some c ∧
    rowGet wrow "company_name" = some c ∧
    rowGet nrow "related_company" = some c := by
  refine ⟨?_, h3, rowGet_of_head?_filterEq h5, rowGet_of_head?_filterEq h7⟩
  simp [get_person_info, get_person_info_try_ok h1 h2 h3 h4 h5 h6 h7]

/-- Witness for C3 at the worked example data. -/
theorem resolve_success_join_keys_witness :
    get_person_info "Jane Doe" exampleData = (some exampleRecord, []) ∧
    rowGet exampleRecord.person "company" = some "Acme" ∧
    rowGet exampleRecord.company "company_name" = some "Acme" ∧
    rowGet exampleRecord.news "related_company" = some "Acme" := by
  have h := resolve_success_join_keys "Jane Doe" exampleData
    exampleRecord.person exampleRecord.company exampleRecord.news "Acme"
    (by decide) (by decide) (by decide) (by decide) (by decide) (by decide)
    (by decide)
  exact ⟨h.1, h.2⟩

/-- C8: when several rows match a lookup key, the first row in table order
is selected: the head of the equality filter is the first matching row, and
for a profile table holding several rows for the queried person any
successful resolve returns the first such row as the person component and
keys the company and news components by that first row's employer field. -/
theorem first_match_tie_break :
    (∀ (col v : String) (pre : List Row) (r : Row) (post : List Row),
      rowGet r col = some v → (∀ x ∈ pre, rowGet x col ≠ some v) →
      (filterEq (pre ++ r :: post) col v).head? = some r) ∧
    (∀ (d : AllData) (p : String) (pre : List Row) (r : Row) (post : List Row),
      "name" ∈ d.linkedin.columns →
      d.linkedin.rows = pre ++ r :: post →
      rowGet r "name" = some p →
      (∀ x ∈ pre, rowGet x "name" ≠ some p) →
      ∀ rec : CombinedRecord, get_person_info p d = (some rec, []) →
        rec.person = r ∧
        rowGet rec.company "company_name" = rowGet r "company" ∧
        rowGet rec.news "related_company" = rowGet r "company") := by
  have key : ∀ (col v : String) (pre : List Row) (r : Row) (post : List Row),
      rowGet r col = some v → (∀ x ∈ pre, rowGet x col ≠ some v) →
      (filterEq (pre ++ r :: post) col v).head? = some r := by
    intro col v pre r post hr hpre
    simp only [filterEq, List.filter_append]
    have hnil : pre.filter (fun x => rowGet x col == some v) = [] :=
      List.filter_eq_nil_iff.mpr (fun a ha => by simpa using hpre a ha)
    rw [hnil, List.filter_cons_of_pos (by simpa using hr)]
    rfl
  refine ⟨key, ?_⟩
  intro d p pre r post h1 hrows hr hpre rec hres
  have hhead : (filterEq d.linkedin.rows "name" p).head? = some r := by
    rw [hrows]; exact key "name" p pre r post hr hpre
  exact get_person_info_try_ok_inv h1 hhead (get_person_info_ok_inv hres)

/-- Witness for C8: with two profile rows for "Jane Doe", the first one (at
Acme) is the person returned and its employer keys the other components. -/
theorem first_match_tie_break_witness :
    (filterEq [[("name", "Jane Doe"), ("company", "Acme")],
        [("name", "Jane Doe"), ("company", "Globex")]] "name" "Jane Doe").head? =
      some [("name", "Jane Doe"), ("company", "Acme")] ∧
    ∀ rec : CombinedRecord,
      get_person_info "Jane Doe" exampleDataDuplicate = (some rec, []) →
        rec.person = [("name", "Jane Doe"), ("company", "Acme")] ∧
        rowGet rec.company "company_name" =
          rowGet [("name", "Jane Doe"), ("company", "Acme")] "company" ∧
        rowGet rec.news "related_company" =
          rowGet [("name", "Jane Doe"), ("company", "Acme")] "company" :=
  ⟨first_match_tie_break.1 "name" "Jane Doe" []
      [("name", "Jane Doe"), ("company", "Acme")]
      [[("name", "Jane Doe"), ("company", "Globex")]] (by decide) (by decide),
   first_match_tie_break.2 exampleDataDuplicate "Jane Doe"
      [] [("name", "Jane Doe"), ("company", "Acme")]
      [[("name", "Jane Doe"), ("company", "Globex")]] (by decide) (by decide)
      (by decide) (by decide)⟩

/-- C4 counterexample: the claim as stated is false in its key-column part —
a source that is readable but missing its required key column does not make
the load fail: `load_all_data` returns all three tables and shows no
error, even though the profile table has no "name" column. -/
theorem load_missing_key_column_succeeds :
    "name" ∉ (Table.mk ["person"] [[("person", "Jane Doe")]]).columns ∧
    load_all_data (Except.ok (Table.mk ["person"] [[("person", "Jane Doe")]]))
        (Except.ok exampleData.website) (Except.ok exampleData.news) =
      (some { linkedin := Table.mk ["person"] [[("person", "Jane Doe")]],
              website := exampleData.website, news := exampleData.news },
        []) := by
  decide

/-- C4 (amended): if any of the three table sources is absent or unreadable
(its read raises), the whole load fails as one error: no table is returned
and exactly one error message is shown, with no per-table fallback; when
all three reads succeed, all three tables are returned together.  A
readable source missing its required key column is not detected by the
loader. -/
theorem load_all_or_nothing (ls ws ns : Except String Table) :
    (((∃ e, ls = Except.error e) ∨ (∃ e, ws = Except.error e) ∨
        (∃ e, ns = Except.error e)) →
      (load_all_data ls ws ns).1 = none ∧
      ∃ e, (load_all_data ls ws ns).2 = ["Error loading data: " ++ e]) ∧
    (∀ t1 t2 t3, ls = Except.ok t1 → ws = Except.ok t2 → ns = Except.ok t3 →
      load_all_data ls ws ns =
        (some { linkedin := t1, website := t2, news := t3 }, [])) := by
  constructor
  · intro h
    cases ls with
    | error e =>
        exact ⟨by simp [load_all_data, exceptBind_error],
          e, by simp [load_all_data, exceptBind_error]⟩
    | ok t1 =>
        cases ws with
        | error e =>
            exact ⟨by simp [load_all_data, exceptBind_ok, exceptBind_error],
              e, by simp [load_all_data, exceptBind_ok, exceptBind_error]⟩
        | ok t2 =>
            cases ns with
            | error e =>
                exact ⟨by simp [load_all_data, exceptBind_ok, exceptBind_error],
                  e, by simp [load_all_data, exceptBind_ok, exceptBind_error]⟩
            | ok t3 =>
                rcases h with ⟨e, he⟩ | ⟨e, he⟩ | ⟨e, he⟩ <;> simp at he
  · intro t1 t2 t3 h1 h2 h3
    subst h1; subst h2; subst h3
    simp [load_all_data, exceptBind_ok]

/-- Witness for the amended C4 theorem: a failing first read yields no
tables and one message; three successful reads yield all three tables. -/
theorem load_all_or_nothing_witness :
    ((load_all_data (Except.error "missing file")
        (Except.ok exampleData.website) (Except.ok exampleData.news)).1 =
          none ∧
      ∃ e, (load_all_data (Except.error "missing file")
        (Except.ok exampleData.website) (Except.ok exampleData.news)).2 =
          ["Error loading data: " ++ e]) ∧
    load_all_data (Except.ok exampleData.linkedin)
        (Except.ok exampleData.website) (Except.ok exampleData.news) =
      (some { linkedin := exampleData.linkedin,
              website := exampleData.website,
              news := exampleData.news }, []) :=
  ⟨(load_all_or_nothing (Except.error "missing file")
      (Except.ok exampleData.website) (Except.ok exampleData.news)).1
      (Or.inl ⟨"missing file", rfl⟩),
   (load_all_or_nothing (Except.ok exampleData.linkedin)
      (Except.ok exampleData.website) (Except.ok exampleData.news)).2
      exampleData.linkedin exampleData.website exampleData.news rfl rfl rfl⟩

/-- C2: evaluation of the code at the failing point — the generation config
dictionary is built with temperature 0.7, top_p 0.95, top_k 40 and
max_output_tokens 1024, but the model is constructed without it and without
the safety settings (both arguments are commented out in the source), so
every request `generate_email` issues carries no explicit decoding
parameters. -/
theorem generate_email_request_lacks_decoding_params :
    generation_config =
      { temperature := 7 / 10, top_p := 19 / 20, top_k := 40,
        max_output_tokens := 1024 } ∧
    the_model.generation_config = none ∧
    the_model.safety_settings = none ∧
    ∀ (data : CombinedRecord) (prompt : String),
      (generate_email_request data prompt).model.generation_config = none ∧
      (generate_email_request data prompt).model.safety_settings = none :=
  ⟨rfl, rfl, rfl, fun _ _ => ⟨rfl, rfl⟩⟩

/-- C5: when the model constructor succeeds, a failing service call makes
`generate_email` return a string beginning with the error marker
"Error generating email: " instead of raising, and a successful service
call makes it return the produced text verbatim. -/
theorem generate_email_error_marker_or_verbatim (env : GenEnv)
    (data : CombinedRecord) (prompt : String)
    (hm : env.construct_model_fails = none) :
    (∀ e, env.generate_content (generate_email_request data prompt) =
        Except.error e →
      ∃ rest, generate_email env data prompt =
        "Error generating email: " ++ rest) ∧
    (∀ t, env.generate_content (generate_email_request data prompt) =
        Except.ok t →
      generate_email env data prompt = t) := by
  constructor
  · intro e he
    simp only [generate_email_request] at he
    exact ⟨e, by simp [generate_email, hm, exceptBind_ok, he]⟩
  · intro t ht
    simp only [generate_email_request] at ht
    simp [generate_email, hm, exceptBind_ok, ht]

/-- Witness for C5: a failing environment produces the marked error string
and a successful one returns the service text verbatim. -/
theorem generate_email_error_marker_or_verbatim_witness :
    (∃ rest, generate_email envServiceFails exampleRecord "Say hi" =
      "Error generating email: " ++ rest) ∧
    generate_email envServiceOk exampleRecord "Say hi" = "Subject: Hello" :=
  ⟨(generate_email_error_marker_or_verbatim envServiceFails exampleRecord
      "Say hi" rfl).1 "quota exceeded" rfl,
   (generate_email_error_marker_or_verbatim envServiceOk exampleRecord
      "Say hi" rfl).2 "Subject: Hello" rfl⟩

/-- C10: `generate_email` is total over its error channel — for every
environment, data and prompt it returns a string, and that string is either
the service text (all steps succeeded) or the marked error string built
from the exception raised at model construction or at the service call; no
exception propagates. -/
theorem generate_email_total_error_channel (env : GenEnv)
    (data : CombinedRecord) (prompt : String) :
    (∃ e, env.construct_model_fails = some e ∧
      generate_email env data prompt = "Error generating email: " ++ e) ∨
    (env.construct_model_fails = none ∧
      ((∃ e, env.generate_content (generate_email_request data prompt) =
          Except.error e ∧
        generate_email env data prompt = "Error generating email: " ++ e) ∨
       (∃ t, env.generate_content (generate_email_request data prompt) =
          Except.ok t ∧
        generate_email env data prompt = t))) := by
  cases hm : env.construct_model_fails with
  | some e =>
      exact Or.inl ⟨e, rfl, by simp [generate_email, hm, exceptBind_error]⟩
  | none =>
      refine Or.inr ⟨rfl, ?_⟩
      cases hc : env.generate_content (generate_email_request data prompt) with
      | error e =>
          refine Or.inl ⟨e, rfl, ?_⟩
          simp only [generate_email_request] at hc
          simp [generate_email, hm, exceptBind_ok, hc]
      | ok t =>
          refine Or.inr ⟨t, rfl, ?_⟩
          simp only [generate_email_request] at hc
          simp [generate_email, hm, exceptBind_ok, hc]

/-- The section header rendered by `section_str` occurs in its output. -/
theorem substr_section (category : String) (info : Row) :
    substr ("--- " ++ pyUpper category ++ " INFORMATION ---")
      (section_str category info) := by
  have h1 : ("\n--- " : String) = "\n" ++ "--- " := by decide
  have h2 : (" INFORMATION ---\n" : String) = " INFORMATION ---" ++ "\n" := by
    decide
  refine ⟨"\n", "\n" ++
    (String.intercalate "\n" (info.map (fun kv => kv.1 ++ ": " ++ kv.2)) ++
      "\n"), ?_⟩
  simp only [section_str, h1, h2, String.append_assoc]

/-- C6: the assembled prompt always contains the three section headers (one
per data source) and contains the caller-supplied instructions text
unmodified as a substring. -/
theorem full_prompt_sections_and_instructions (data : CombinedRecord)
    (instructions : String) :
    substr "--- PERSON INFORMATION ---" (full_prompt data instructions) ∧
    substr "--- COMPANY INFORMATION ---" (full_prompt data instructions) ∧
    substr "--- NEWS INFORMATION ---" (full_prompt data instructions) ∧
    substr instructions (full_prompt data instructions) := by
  have hp : substr "--- PERSON INFORMATION ---"
      (section_str "person" data.person) := by
    have h := substr_section "person" data.person
    have e : ("--- " ++ pyUpper "person" ++ " INFORMATION ---") =
        "--- PERSON INFORMATION ---" := by decide
    rwa [e] at h
  have hc : substr "--- COMPANY INFORMATION ---"
      (section_str "company" data.company) := by
    have h := substr_section "company" data.company
    have e : ("--- " ++ pyUpper "company" ++ " INFORMATION ---") =
        "--- COMPANY INFORMATION ---" := by decide
    rwa [e] at h
  have hn : substr "--- NEWS INFORMATION ---"
      (section_str "news" data.news) := by
    have h := substr_section "news" data.news
    have e : ("--- " ++ pyUpper "news" ++ " INFORMATION ---") =
        "--- NEWS INFORMATION ---" := by decide
    rwa [e] at h
  refine ⟨?_, ?_, ?_, ?_⟩
  · exact substr_app_right _ (substr_app_right _ (substr_app_right _
      (substr_app_left _ (substr_app_right _ (substr_app_right _ hp)))))
  · exact substr_app_right _ (substr_app_right _ (substr_app_right _
      (substr_app_left _ (substr_app_right _ (substr_app_left _ hc)))))
  · exact substr_app_right _ (substr_app_right _ (substr_app_right _
      (substr_app_left _ (substr_app_left _ hn))))
  · exact substr_app_right _ (substr_app_left _ (substr_self instructions))

/-- C7: prompt assembly is deterministic — two calls with identical
CombinedRecord and identical instructions yield identical prompt strings. -/
theorem full_prompt_deterministic (d1 d2 : CombinedRecord) (i1 i2 : String)
    (hd : d1 = d2) (hi : i1 = i2) :
    full_prompt d1 i1 = full_prompt d2 i2 := by
  rw [hd, hi]

/-- Witness for C7 at the worked example record. -/
theorem full_prompt_deterministic_witness :
    full_prompt exampleRecord "Write a short networking email." =
      full_prompt exampleRecord "Write a short networking email." :=
  full_prompt_deterministic exampleRecord exampleRecord
    "Write a short networking email." "Write a short networking email."
    rfl rfl

/-- C9: triggering email generation with empty instructions is rejected
before any call to the generation service — the warning is shown, no email
content is produced, and the list of requests sent to the service is
empty. -/
theorem empty_prompt_no_service_call (env : GenEnv)
    (person_info : CombinedRecord) :
    generate_click env person_info "" =
      ((none, ["Please enter a prompt for email generation."]), []) := by
  simp [generate_click]
